import Mathlib

/-!
Verification of the Getiva application backend (src/backend/main.py):
the file-ingestion pipeline (`create_application`, `update_application`,
the Azure blob upload it performs inline, the unused storage helpers such
as `upload_to_google_drive`), and the reference resolution endpoints
(`download_file`, `view_file`).

Python strings are modelled as Lean `String`; the Python string methods
used by the source (`endswith`, `startswith`, `lower`, `split`, `in`,
`urllib.parse.quote`/`unquote`, `os.path` helpers) are given executable
character-list implementations below so that every definition evaluates
inside the kernel.
-/

namespace Getiva

/-- Python `s.endswith(p)` for a single suffix (case-sensitive, like the
source). -/
def pyEndsWith (s p : String) : Bool := p.data.isSuffixOf s.data

/-- Python `s.startswith(p)`. -/
def pyStartsWith (s p : String) : Bool := p.data.isPrefixOf s.data

/-- Python `s.lower()` as used on ASCII filenames. -/
def pyLower (s : String) : String := String.mk (s.data.map Char.toLower)

/-- Python `c in s` for a single character `c`. -/
def pyContainsChar (s : String) (c : Char) : Bool := s.data.contains c

/-- `needle` occurs as a contiguous sublist of `hay`. -/
def subListOf (needle hay : List Char) : Bool :=
  match hay with
  | [] => needle.isEmpty
  | _ :: t => needle.isPrefixOf hay || subListOf needle t

/-- Python `sub in s` substring containment. -/
def pyContainsSub (s sub : String) : Bool := subListOf sub.data s.data

/-- Split a character list on a separator character, Python
`str.split(sep)` style: `n` separators yield `n + 1` (possibly empty)
pieces. -/
def splitOnCharAux (c : Char) : List Char → List (List Char)
  | [] => [[]]
  | x :: xs =>
    let r := splitOnCharAux c xs
    if x == c then [] :: r
    else
      match r with
      | [] => [[x]]
      | y :: ys => (x :: y) :: ys

/-- Python `s.split(sep)` for a one-character separator. -/
def pySplitChar (s : String) (c : Char) : List String :=
  (splitOnCharAux c s.data).map String.mk

/-- Hex value of a character, for percent-decoding. -/
def hexVal (c : Char) : Option Nat :=
  if 48 ≤ c.toNat && c.toNat ≤ 57 then some (c.toNat - 48)
  else if 65 ≤ c.toNat && c.toNat ≤ 70 then some (c.toNat - 55)
  else if 97 ≤ c.toNat && c.toNat ≤ 102 then some (c.toNat - 87)
  else none

/-- Python `urllib.parse.unquote` restricted to ASCII percent-escapes:
a `%` followed by two hex digits decodes to that character, anything
else is passed through. Fuel-driven so it reduces in the kernel. -/
def pyUnquoteAux : Nat → List Char → List Char
  | 0, l => l
  | _ + 1, [] => []
  | fuel + 1, '%' :: a :: b :: rest2 =>
    match hexVal a, hexVal b with
    | some x, some y => Char.ofNat (16 * x + y) :: pyUnquoteAux fuel rest2
    | _, _ => '%' :: pyUnquoteAux fuel (a :: b :: rest2)
  | fuel + 1, c :: rest => c :: pyUnquoteAux fuel rest

/-- Python `urllib.parse.unquote` on a string. -/
def pyUnquote (s : String) : String := String.mk (pyUnquoteAux s.data.length s.data)

/-- True for the characters `urllib.parse.quote` never escapes
(letters, digits, `_`, `.`, `-`, `~`). -/
def isUnreservedChar (c : Char) : Bool :=
  (65 ≤ c.toNat && c.toNat ≤ 90) || (97 ≤ c.toNat && c.toNat ≤ 122) ||
    (48 ≤ c.toNat && c.toNat ≤ 57) || c == '_' || c == '.' || c == '-' || c == '~'

/-- Upper-case hex digit for a value below 16. -/
def hexDigitChar (d : Nat) : Char :=
  if d < 10 then Char.ofNat (48 + d) else Char.ofNat (55 + d)

/-- Percent-encode one ASCII character, `urllib.parse.quote` with
`safe` empty. -/
def pyQuoteChar (c : Char) : List Char :=
  if isUnreservedChar c then [c]
  else ['%', hexDigitChar (c.toNat / 16 % 16), hexDigitChar (c.toNat % 16)]

/-- Python `urllib.parse.quote(s, safe=empty)` on ASCII strings. -/
def pyQuote (s : String) : String := String.mk ((s.data.map pyQuoteChar).flatten)

/-- Decimal digits of a natural number, fuel-driven so it reduces in the
kernel. -/
def natToStrAux : Nat → Nat → List Char
  | 0, _ => []
  | fuel + 1, n =>
    if n < 10 then [Char.ofNat (48 + n)]
    else natToStrAux fuel (n / 10) ++ [Char.ofNat (48 + n % 10)]

/-- Python `str(n)` for a natural number. -/
def natToStr (n : Nat) : String := String.mk (natToStrAux (n + 1) n)

/-! ## Data model -/

/-- Storage backends appearing in the source: the four helper adapters
plus the Azure blob store that `create_application` and
`update_application` actually call. -/
inductive BackendKind
  | objectDrive
  | blobBucket
  | cdnMedia
  | localDisk
  | azureBlob
deriving DecidableEq

/-- A FastAPI `HTTPException`: status code and detail string. -/
structure HTTPError where
  status : Nat
  detail : String
deriving DecidableEq

/-- One row of the `applications` table (the columns touched by
`create_application` / `update_application`). -/
structure AppRecord where
  id : String
  username : String
  company : String
  job_description : String
  filename : String
  timestamp : String
  resume_file_url : String
  status : String
  azure_blob_path : String
deriving DecidableEq

/-- The `application` dict returned by `create_application`. -/
structure AppResponse where
  id : String
  username : String
  company : String
  job_description : String
  jobdescription : String
  filename : String
  timestamp : String
  resume_file_url : String
  download_link : String
  view_link : String
  status : String
  azure_blob_path : String
deriving DecidableEq

/-- The `application` dict returned by `update_application` (it carries
no `username` key). -/
structure UpdateResponse where
  id : String
  company : String
  job_description : String
  jobdescription : String
  filename : String
  timestamp : String
  resume_file_url : String
  download_link : String
  view_link : String
  status : String
  azure_blob_path : String
deriving DecidableEq

/-! ## MIME helper and the drive-style adapter -/

/-- The `extension` local of `get_mime_type`:
`filename.lower().splitChar on dot, last piece` when the name contains a
dot, empty otherwise. -/
def lowerLastSegment (filename : String) : String :=
  if pyContainsChar filename '.' then
    String.mk ((splitOnCharAux '.' (pyLower filename).data).getLastD [])
  else ""

/-- The `mime_types` dict lookup of `get_mime_type` with its
octet-stream default. -/
def mimeFor (extension : String) : String :=
  if extension = "pdf" then "application/pdf"
  else if extension = "doc" then "application/msword"
  else if extension = "docx" then
    "application/vnd.openxmlformats-officedocument.wordprocessingml.document"
  else "application/octet-stream"

/-- `get_mime_type` from src/backend/main.py (lines 818-826). -/
def get_mime_type (filename : String) : String := mimeFor (lowerLastSegment filename)

/-- Environment of `upload_to_google_drive`: availability of the drive
service, the outcome of the object-create call (given content, filename
and mime type, returning the new file id), and the outcome of the
follow-up public-read permission call on a file id. -/
structure DriveEnv where
  serviceAvailable : Bool
  createFile : List Nat → String → String → Except String String
  createPermission : String → Except String Unit

/-- The dict returned by `upload_to_google_drive`. -/
structure DriveLinks where
  view_link : String
  download_link : String
  file_id : String
deriving DecidableEq

/-- `upload_to_google_drive` from src/backend/main.py (lines 828-863):
create the object, then make it publicly readable; any exception from
either remote call is re-raised (modelled as `Except.error`). -/
def upload_to_google_drive (env : DriveEnv) (file_content : List Nat)
    (filename : String) : Except String DriveLinks :=
  if env.serviceAvailable = false then
    Except.error "Google Drive service not available"
  else
    match env.createFile file_content filename (get_mime_type filename) with
    | Except.error e => Except.error e
    | Except.ok file_id =>
      match env.createPermission file_id with
      | Except.error e => Except.error e
      | Except.ok _ =>
        Except.ok
          ⟨"https://drive.google.com/file/d/" ++ file_id ++ "/view",
           "https://drive.google.com/uc?export=download&id=" ++ file_id,
           file_id⟩

/-! ## The inline Azure upload of create_application / update_application -/

/-- Arguments of the `generate_blob_sas` call. The source passes
`BlobSasPermissions(read=True)` (read-only) and
`expiry = datetime.utcnow() + timedelta(days=365)`; times are modelled
in seconds. -/
structure SasRequest where
  account_name : String
  container_name : String
  blob_name : String
  account_key : String
  read : Bool
  expiry : Nat
deriving DecidableEq

/-- Seconds in one day, for `timedelta(days=...)`. -/
def secondsPerDay : Nat := 86400

/-- Azure-side environment: the three configuration values, the outcome
of `upload_blob` (a function of blob name and content), the abstract
`generate_blob_sas` primitive, the value of `datetime.utcnow()` in
seconds, and the `datetime.now().strftime` timestamp string used in the
blob name. -/
structure AzureEnv where
  account_name : String
  account_key : String
  container_name : String
  upload : String → List Nat → Except String Unit
  sas : SasRequest → String
  nowUtc : Nat
  timestamp_str : String

/-- Strip the `ey1:` prefix from the account key, as both endpoints do. -/
def stripEy1 (key : String) : String :=
  if pyStartsWith key "ey1:" then String.mk (key.data.drop 4) else key

/-- The `content_type` chosen for the Azure upload: docx and doc are
recognised on the lower-cased filename, everything else defaults to
`application/pdf`. -/
def resumeContentType (filename : String) : String :=
  if pyEndsWith (pyLower filename) ".docx" then
    "application/vnd.openxmlformats-officedocument.wordprocessingml.document"
  else if pyEndsWith (pyLower filename) ".doc" then "application/msword"
  else "application/pdf"

/-- The `blob_name` both endpoints build:
`username/resumes/timestamp_filename`. -/
def resumeBlobName (env : AzureEnv) (username filename : String) : String :=
  username ++ "/resumes/" ++ env.timestamp_str ++ "_" ++ filename

/-- The SAS download URL both endpoints build for a blob: the public
blob address with the token of `generate_blob_sas` appended, a token
requested with read-only permission and expiry
`utcnow + timedelta(days=365)`. -/
def resumeSasUrl (env : AzureEnv) (blob : String) : String :=
  "https://" ++ env.account_name ++ ".blob.core.windows.net/" ++
    env.container_name ++ "/" ++ blob ++ "?" ++
    env.sas ⟨env.account_name, env.container_name, blob, stripEy1 env.account_key,
      true, env.nowUtc + 365 * secondsPerDay⟩

/-- The Azure upload block shared by `create_application`
(main.py lines 1143-1210) and `update_application` (lines 1324-1375):
check credentials, strip the key prefix, build the blob name, upload,
generate a read-only SAS expiring 365 days after `utcnow`, and return
the SAS download URL together with the blob path. Any failure is the
caught exception text. -/
def azureUploadResume (env : AzureEnv) (username filename : String)
    (file_content : List Nat) : Except String (String × String) :=
  if env.account_name = "" ∨ env.account_key = "" then
    Except.error "Azure Storage credentials not configured"
  else
    match env.upload (resumeBlobName env username filename) file_content with
    | Except.error e => Except.error e
    | Except.ok _ =>
      Except.ok
        (resumeSasUrl env (resumeBlobName env username filename),
         resumeBlobName env username filename)

/-! ## create_application and update_application -/

/-- The entry-point extension check of both endpoints:
`file.filename.endswith((dot pdf, dot doc, dot docx))` — a
case-sensitive suffix test. -/
def validResumeName (filename : String) : Bool :=
  pyEndsWith filename ".pdf" || pyEndsWith filename ".doc" ||
    pyEndsWith filename ".docx"

/-- Environment of `create_application` beyond the Azure part: database
connectivity, whether the user row exists, whether the INSERT succeeds,
and the `CURRENT_TIMESTAMP` string the database returns. -/
structure CreateEnv where
  azure : AzureEnv
  dbConnOk : Bool
  userExists : Bool
  insertOk : Bool
  dbTimestamp : String

/-- The response dict built by `create_application` on success: the
three URL keys all receive the single `download_link`. -/
def createResponse (env : CreateEnv) (id username company job_description
    filename download_link blob_path : String) : AppResponse :=
  ⟨id, username, company, job_description, job_description, filename,
   env.dbTimestamp, download_link, download_link, download_link, "applied",
   blob_path⟩

/-- `create_application` from src/backend/main.py (lines 1104-1272):
validate the extension, check the connection and the user, upload to
Azure (no fallback: on failure the request is rejected with HTTP 500),
then insert the row. The result is the list of storage backends whose
remote store was invoked, the HTTP outcome, and the resulting
`applications` table. The SERIAL id is modelled as one past the current
row count. -/
def create_application (env : CreateEnv) (username company job_description
    filename : String) (file_content : List Nat) (store : List AppRecord) :
    List BackendKind × Except HTTPError AppResponse × List AppRecord :=
  if validResumeName filename = false then
    ([], Except.error ⟨400, "Only PDF and DOC files are allowed"⟩, store)
  else if env.dbConnOk = false then
    ([], Except.error ⟨500, "Database connection not available"⟩, store)
  else if env.userExists = false then
    ([], Except.error ⟨404, "User not found. Please login first."⟩, store)
  else
    let attempted : List BackendKind :=
      if env.azure.account_name = "" ∨ env.azure.account_key = "" then []
      else [BackendKind.azureBlob]
    match azureUploadResume env.azure username filename file_content with
    | Except.error e =>
      (attempted,
       Except.error ⟨500, "Failed to upload file to Azure Blob Storage: " ++ e ++
         ". Please check Azure credentials."⟩,
       store)
    | Except.ok (download_link, blob_path) =>
      if env.insertOk = false then
        (attempted, Except.error ⟨500, "Error saving application to database"⟩,
         store)
      else
        (attempted,
         Except.ok (createResponse env (natToStr (store.length + 1)) username
           company job_description filename download_link blob_path),
         store ++ [⟨natToStr (store.length + 1), username, company,
           job_description, filename, env.dbTimestamp, download_link, "applied",
           blob_path⟩])

/-- Environment of `update_application`: database connectivity, the row
fetched for `(row_id, username)` (none means HTTP 404), and whether the
UPDATE succeeds. -/
structure UpdateEnv where
  azure : AzureEnv
  dbConnOk : Bool
  existing : Option AppRecord
  updateOk : Bool

/-- The field updates and response construction of
`update_application`: apply the partial fields (status lower-cased),
apply the file replacement when present, and build the response dict
whose three URL keys all read the row column `resume_file_url`. -/
def finishUpdate (env : UpdateEnv) (row : AppRecord)
    (company job_description status : Option String)
    (fileInfo : Option (String × String × String)) :
    Except HTTPError UpdateResponse :=
  if env.updateOk = false then
    Except.error ⟨500, "Error updating application"⟩
  else
    let r1 : AppRecord :=
      { row with
        company := company.getD row.company,
        job_description := job_description.getD row.job_description,
        status := (status.map pyLower).getD row.status }
    let r2 : AppRecord :=
      match fileInfo with
      | some (fname, link, path) =>
        { r1 with
          filename := fname
          resume_file_url := link
          azure_blob_path := path }
      | none => r1
    Except.ok
      ⟨r2.id, r2.company, r2.job_description, r2.job_description, r2.filename,
       r2.timestamp, r2.resume_file_url, r2.resume_file_url,
       r2.resume_file_url, r2.status, r2.azure_blob_path⟩

/-- `update_application` from src/backend/main.py (lines 1274-1432):
fetch the row, and when a replacement file is supplied validate its
extension and upload it to Azure exactly as `create_application` does
(again with no fallback), then update the row and answer with the
re-read row. -/
def update_application (env : UpdateEnv) (username : String)
    (company job_description status : Option String)
    (file : Option (String × List Nat)) : Except HTTPError UpdateResponse :=
  if env.dbConnOk = false then
    Except.error ⟨500, "Database connection not available"⟩
  else
    match env.existing with
    | none => Except.error ⟨404, "Application not found"⟩
    | some row =>
      match file with
      | some (fname, fcontent) =>
        if validResumeName fname = false then
          Except.error ⟨400, "Only PDF and DOC files are allowed"⟩
        else
          match azureUploadResume env.azure username fname fcontent with
          | Except.error e =>
            Except.error ⟨500, "Failed to upload file to Azure Blob Storage: " ++
              e ++ ". Please check Azure credentials."⟩
          | Except.ok (download_link, blob_path) =>
            finishUpdate env row company job_description status
              (some (fname, download_link, blob_path))
      | none => finishUpdate env row company job_description status none

/-! ## download_file and view_file -/

/-- What `urlopen` produced: the body bytes and the optional
`Content-Type` header. -/
structure FetchResult where
  content : List Nat
  contentType : Option String
deriving DecidableEq

/-- The render outcome of the two resolver endpoints: a proxied body
with a content type and a disposition (attachment or inline), a browser
redirect, an HTML page embedding a viewer iframe with the given `src`,
or an HTTP error response. -/
inductive RenderPlan
  | serveBytes (content : List Nat) (contentType : String)
      (dispositionAttachment : Bool) (filename : String)
  | redirectTo (url : String)
  | embedHtml (iframeSrc : String)
  | httpError (status : Nat) (detail : String)
deriving DecidableEq

/-- The `url.startswith` guard of both endpoints. -/
def isHttpUrl (url : String) : Bool :=
  pyStartsWith url "http://" || pyStartsWith url "https://"

/-- `urlparse(url).path` plus query and fragment, for a URL that passed
the http(s) guard: the characters from the first slash after the
authority. -/
def afterAuthority (url : String) : List Char :=
  let rest :=
    if pyStartsWith url "https://" then url.data.drop 8
    else if pyStartsWith url "http://" then url.data.drop 7
    else url.data
  rest.dropWhile (fun c => c != '/')

/-- The filename both endpoints extract:
`os.path.basename(urlparse(url).path) or "file"`, then `unquote`. -/
def urlFilename (url : String) : String :=
  let path := ((afterAuthority url).takeWhile (fun c => c != '#')).takeWhile
    (fun c => c != '?')
  let base := (splitOnCharAux '/' path).getLastD []
  let fname := if base.isEmpty then ['f', 'i', 'l', 'e'] else base
  pyUnquote (String.mk fname)

/-- `os.path.splitext(base)[1]`: the suffix from the last dot, unless
every character before that dot is itself a dot. -/
def splitextExt (base : List Char) : List Char :=
  let rev := base.reverse
  let afterRev := rev.takeWhile (fun c => c != '.')
  match rev.drop afterRev.length with
  | [] => []
  | _ :: beforeRev =>
    if beforeRev.any (fun c => c != '.') then '.' :: afterRev.reverse else []

/-- The `file_ext` local of `view_file`:
`os.path.splitext(filename)[1].lower()`. -/
def fileExt (filename : String) : String :=
  pyLower (String.mk (splitextExt filename.data))

/-- The supabase tweak of `view_file`: append an inline-disposition
query parameter to supabase URLs that lack one, before fetching. -/
def supabaseAdjust (url : String) : String :=
  if pyContainsSub url "supabase.co" &&
      !pyContainsSub url "response-content-disposition" then
    let separator := if pyContainsChar url '?' then "&" else "?"
    url ++ separator ++ "response-content-disposition=inline"
  else url

/-- `download_file` from src/backend/main.py (lines 2418-2475): proxy
any http(s) URL with attachment disposition; when the fetch raises,
return a redirect to the original URL; any other URL is a 400. -/
def download_file (fetch : String → Except String FetchResult)
    (url : String) : RenderPlan :=
  if isHttpUrl url then
    match fetch url with
    | Except.ok r =>
      RenderPlan.serveBytes r.content
        (r.contentType.getD "application/octet-stream") true (urlFilename url)
    | Except.error _ => RenderPlan.redirectTo url
  else
    RenderPlan.httpError 400
      "Invalid URL format. Only Azure Blob Storage URLs are supported. Local storage is not available."

/-- The docx/doc branch test of `view_file`. -/
def viewDocBranch (url : String) : Bool :=
  let ext := fileExt (urlFilename url)
  ext == ".docx" || ext == ".doc"

/-- The drive-view-link branch test of `view_file`. -/
def viewDriveBranch (url : String) : Bool :=
  pyContainsSub url "drive.google.com/file/d/" && pyContainsSub url "/view"

/-- True when `view_file` reaches its fetch-and-proxy branch for the
given http(s) URL. -/
def viewProxyBranch (url : String) : Bool :=
  !viewDocBranch url && !viewDriveBranch url

/-- `view_file` from src/backend/main.py (lines 2477-2633): office
documents get a Google-Docs-viewer iframe page without any fetch, drive
view links get an iframe of the link itself, everything else is fetched
(after the supabase inline tweak) and served inline — or, when the
fetch raises, answered with a redirect to the fetched URL. Non-http(s)
URLs are a 400. -/
def view_file (fetch : String → Except String FetchResult)
    (url : String) : RenderPlan :=
  if isHttpUrl url then
    let filename := urlFilename url
    let file_ext := fileExt filename
    if viewDocBranch url then
      RenderPlan.embedHtml
        ("https://docs.google.com/viewer?url=" ++ pyQuote url ++ "&embedded=true")
    else if viewDriveBranch url then
      RenderPlan.embedHtml url
    else
      let fetchUrl := supabaseAdjust url
      match fetch fetchUrl with
      | Except.ok r =>
        let ct0 := r.contentType.getD "application/octet-stream"
        let ct := if file_ext == ".pdf" || ct0 == "application/pdf" then
            "application/pdf"
          else ct0
        RenderPlan.serveBytes r.content ct false filename
      | Except.error _ => RenderPlan.redirectTo fetchUrl
  else
    RenderPlan.httpError 400
      "Invalid URL format. Only Azure Blob Storage URLs are supported. Local storage is not available."

/-! ## The removed local-disk naming helper -/

/-- Loop of the local name probe: try `n`, `n+1`, ... while fuel lasts,
returning the first index whose name is free. -/
def nextFreeLocal (occupied : Nat → Bool) : Nat → Nat → Option Nat
  | 0, _ => none
  | fuel + 1, n => if occupied n then nextFreeLocal occupied fuel (n + 1) else some n

/-- Modelled from the spec: `get_next_local_filename` is removed from
src/backend/main.py (only a deprecation stub remains at lines 933-936),
so the adapter is modelled from the spec wording: generate the next
available sequential name (`db1`, `db2`, ...) by probing for the first
free slot up to the hard ceiling 10,000, failing closed with
`BackendUnavailable` beyond the ceiling. `occupied n` abstracts the
filesystem existence probe for the name `db` followed by `n`. -/
def get_next_local_filename (occupied : Nat → Bool) : Except String String :=
  match nextFreeLocal occupied 10000 1 with
  | some n => Except.ok ("db" ++ natToStr n)
  | none => Except.error "BackendUnavailable"

/-! ## Concrete environments used by witnesses and counterexamples -/

/-- An Azure environment with credentials present and a succeeding
upload. -/
def azureOkEnv : AzureEnv :=
  ⟨"acct", "key123", "files", fun _ _ => Except.ok (), fun _ => "sastoken",
   1700000000, "20250101_000000"⟩

/-- Same configuration, but `upload_blob` raises. -/
def azureFailEnv : AzureEnv :=
  { azureOkEnv with upload := fun _ _ => Except.error "upload failed" }

/-- A `create_application` environment in which everything succeeds. -/
def envAllOk : CreateEnv := ⟨azureOkEnv, true, true, true, "2025-01-01 00:00:00"⟩

/-- A `create_application` environment in which only the remote storage
write fails. -/
def envRemoteFail : CreateEnv :=
  ⟨azureFailEnv, true, true, true, "2025-01-01 00:00:00"⟩

/-- A pre-existing application row. -/
def sampleRecord : AppRecord :=
  ⟨"7", "u", "acme", "desc", "old.pdf", "2024-01-01 00:00:00",
   "https://old.example.com/old.pdf", "applied", "u/resumes/old.pdf"⟩

/-- An `update_application` environment in which everything succeeds. -/
def updateEnvOk : UpdateEnv := ⟨azureOkEnv, true, some sampleRecord, true⟩

/-- The first bytes of a small PDF upload. -/
def pdfBytes : List Nat := [37, 80, 68, 70]

/-- The SAS link `azureOkEnv` produces for the blob of `offer.pdf`. -/
def okLinkOffer : String :=
  "https://acct.blob.core.windows.net/files/u/resumes/20250101_000000_offer.pdf?sastoken"

/-- The blob path `azureOkEnv` produces for `offer.pdf`. -/
def okPathOffer : String := "u/resumes/20250101_000000_offer.pdf"

/-- The response of the successful concrete `create_application` run. -/
def respCreateOffer : AppResponse :=
  createResponse envAllOk "1" "u" "acme" "desc" "offer.pdf" okLinkOffer okPathOffer

/-- The SAS link `azureOkEnv` produces for the blob of `new.pdf`. -/
def okLinkNew : String :=
  "https://acct.blob.core.windows.net/files/u/resumes/20250101_000000_new.pdf?sastoken"

/-- The blob path `azureOkEnv` produces for `new.pdf`. -/
def okPathNew : String := "u/resumes/20250101_000000_new.pdf"

/-- The response of the successful concrete `update_application` run
replacing the file with `new.pdf`. -/
def respUpdateNew : UpdateResponse :=
  ⟨"7", "acme", "desc", "desc", "new.pdf", "2024-01-01 00:00:00", okLinkNew,
   okLinkNew, okLinkNew, "applied", okPathNew⟩

/-- The SAS link `azureOkEnv` produces for the blob of `a.pdf`. -/
def okLinkA : String :=
  "https://acct.blob.core.windows.net/files/u/resumes/20250101_000000_a.pdf?sastoken"

/-- The blob path `azureOkEnv` produces for `a.pdf`. -/
def okPathA : String := "u/resumes/20250101_000000_a.pdf"

/-- The row the successful concrete `create_application` run inserts
for `a.pdf` into an empty table. -/
def newRecA : AppRecord :=
  ⟨"1", "u", "acme", "desc", "a.pdf", "2025-01-01 00:00:00", okLinkA, "applied",
   okPathA⟩

/-- A drive environment whose permission call fails after a successful
object create. -/
def drivePermFailEnv : DriveEnv :=
  ⟨true, fun _ _ _ => Except.ok "FID", fun _ => Except.error "perm denied"⟩

/-- A supabase-hosted document URL without a disposition parameter. -/
def supaUrl : String := "https://xyz.supabase.co/storage/v1/object/public/files/cv.pdf"

/-! ## Helper lemmas -/

lemma nextFreeLocal_eq_none (occupied : Nat → Bool) :
    ∀ (fuel n : Nat), (∀ m, n ≤ m → m < n + fuel → occupied m = true) →
      nextFreeLocal occupied fuel n = none := by
  intro fuel
  induction fuel with
  | zero => intro n _; rfl
  | succ k ih =>
    intro n h
    have hn : occupied n = true := h n (Nat.le_refl n) (by omega)
    simp only [nextFreeLocal, hn, if_true]
    exact ih (n + 1) (fun m h1 h2 => h m (by omega) (by omega))

lemma nextFreeLocal_eq_some (occupied : Nat → Bool) :
    ∀ (fuel n k : Nat), n ≤ k → k < n + fuel →
      (∀ m, n ≤ m → m < k → occupied m = true) → occupied k = false →
      nextFreeLocal occupied fuel n = some k := by
  intro fuel
  induction fuel with
  | zero => intro n k h1 h2 _ _; omega
  | succ fu ih =>
    intro n k h1 h2 hocc hk
    by_cases hnk : n = k
    · subst hnk
      simp [nextFreeLocal, hk]
    · have hn : occupied n = true := hocc n (Nat.le_refl n) (by omega)
      simp only [nextFreeLocal, hn, if_true]
      exact ih (n + 1) k (by omega) (by omega)
        (fun m hm1 hm2 => hocc m (by omega) hm2) hk

lemma azureUploadResume_ok_shape (env : AzureEnv) (u f : String) (fc : List Nat)
    (link path : String)
    (h : azureUploadResume env u f fc = Except.ok (link, path)) :
    link = resumeSasUrl env path := by
  unfold azureUploadResume at h
  by_cases hc : env.account_name = "" ∨ env.account_key = ""
  · rw [if_pos hc] at h
    exact Except.noConfusion h
  · rw [if_neg hc] at h
    rcases hu : env.upload (resumeBlobName env u f) fc with e | x
    · rw [hu] at h
      exact Except.noConfusion h
    · rw [hu] at h
      injection h with h2
      injection h2 with hl hp
      rw [← hl, ← hp]

/-! ## Claims -/

/-- C2: the local-disk adapter (modelled from the spec, its body being
removed from the source) picks the first free sequential name db1, db2,
... up to the hard ceiling 10,000; with all 10,000 names occupied it
fails with BackendUnavailable, and with exactly db1..db9999 occupied it
succeeds picking db10000. -/
theorem c2_local_name_ceiling (occupied : Nat → Bool) :
    ((∀ n, 1 ≤ n → n ≤ 10000 → occupied n = true) →
      get_next_local_filename occupied = Except.error "BackendUnavailable")
  ∧ (∀ k, 1 ≤ k → k ≤ 10000 → occupied k = false →
      (∀ m, 1 ≤ m → m < k → occupied m = true) →
      get_next_local_filename occupied = Except.ok ("db" ++ natToStr k))
  ∧ ((∀ n, occupied n = decide (1 ≤ n ∧ n ≤ 9999)) →
      get_next_local_filename occupied = Except.ok "db10000") := by
  have part2 : ∀ k, 1 ≤ k → k ≤ 10000 → occupied k = false →
      (∀ m, 1 ≤ m → m < k → occupied m = true) →
      get_next_local_filename occupied = Except.ok ("db" ++ natToStr k) := by
    intro k h1 h2 hk hbefore
    unfold get_next_local_filename
    rw [nextFreeLocal_eq_some occupied 10000 1 k h1 (by omega) hbefore hk]
  refine ⟨?_, part2, ?_⟩
  · intro h
    unfold get_next_local_filename
    rw [nextFreeLocal_eq_none occupied 10000 1 (fun m h1 h2 => h m h1 (by omega))]
  · intro h
    have h10000 : occupied 10000 = false := by
      rw [h 10000]; decide
    have hbe : ∀ m, 1 ≤ m → m < 10000 → occupied m = true := by
      intro m hm1 hm2
      rw [h m]
      simp only [decide_eq_true_eq]
      omega
    have hdb : ("db" ++ natToStr 10000 : String) = "db10000" := by decide
    have := part2 10000 (by omega) (by omega) h10000 hbe
    rw [this, hdb]

/-- Closed instances of C2: with every name occupied the probe fails
with BackendUnavailable; with db1 and db2 occupied it picks db3; with
exactly db1..db9999 occupied it picks db10000. -/
theorem c2_local_name_ceiling_witness :
    get_next_local_filename (fun _ => true) = Except.error "BackendUnavailable"
  ∧ get_next_local_filename (fun n => decide (n < 3)) = Except.ok ("db" ++ natToStr 3)
  ∧ get_next_local_filename (fun n => decide (1 ≤ n ∧ n ≤ 9999)) = Except.ok "db10000" := by
  refine ⟨?_, ?_, ?_⟩
  · exact (c2_local_name_ceiling (fun _ => true)).1 (fun n _ _ => rfl)
  · refine (c2_local_name_ceiling (fun n => decide (n < 3))).2.1 3 (by omega)
      (by omega) (by decide) ?_
    intro m h1 h2
    interval_cases m <;> rfl
  · exact (c2_local_name_ceiling (fun n => decide (1 ≤ n ∧ n ≤ 9999))).2.2
      (fun n => rfl)

/-- C7: in `upload_to_google_drive` the object create and the follow-up
public-read permission call form one atomic logical operation — when the
permission call fails after a successful create, the adapter raises
(the permission error) and never returns a reference. -/
theorem c7_drive_permission_failure_surfaces (env : DriveEnv) (fc : List Nat)
    (filename fid e : String)
    (hs : env.serviceAvailable = true)
    (hcreate : env.createFile fc filename (get_mime_type filename) = Except.ok fid)
    (hperm : env.createPermission fid = Except.error e) :
    upload_to_google_drive env fc filename = Except.error e ∧
      ∀ links, upload_to_google_drive env fc filename ≠ Except.ok links := by
  have h : upload_to_google_drive env fc filename = Except.error e := by
    simp [upload_to_google_drive, hs, hcreate, hperm]
  exact ⟨h, fun links hl => by rw [h] at hl; exact Except.noConfusion hl⟩

/-- Closed instance of C7: with a succeeding create and a failing
permission call the adapter surfaces the permission error. -/
theorem c7_drive_permission_failure_surfaces_witness :
    upload_to_google_drive drivePermFailEnv pdfBytes "offer.pdf" =
      Except.error "perm denied" :=
  (c7_drive_permission_failure_surfaces drivePermFailEnv pdfBytes "offer.pdf"
    "FID" "perm denied" rfl rfl rfl).1

/-- C8: `get_mime_type` returns application/pdf exactly for extension
pdf, application/msword exactly for doc, the openxmlformats
wordprocessingml type exactly for docx — matched on the lower-cased
last dot-segment — and application/octet-stream for every other or
missing extension. -/
theorem c8_mime_type_table (filename : String) :
    (get_mime_type filename = "application/pdf" ↔ lowerLastSegment filename = "pdf")
  ∧ (get_mime_type filename = "application/msword" ↔
      lowerLastSegment filename = "doc")
  ∧ (get_mime_type filename =
      "application/vnd.openxmlformats-officedocument.wordprocessingml.document" ↔
      lowerLastSegment filename = "docx")
  ∧ (lowerLastSegment filename ≠ "pdf" → lowerLastSegment filename ≠ "doc" →
      lowerLastSegment filename ≠ "docx" →
      get_mime_type filename = "application/octet-stream") := by
  unfold get_mime_type
  generalize lowerLastSegment filename = s
  by_cases h1 : s = "pdf"
  · subst h1; decide
  by_cases h2 : s = "doc"
  · subst h2; decide
  by_cases h3 : s = "docx"
  · subst h3; decide
  have d1 : ("application/octet-stream" : String) ≠ "application/pdf" := by decide
  have d2 : ("application/octet-stream" : String) ≠ "application/msword" := by decide
  have d3 : ("application/octet-stream" : String) ≠
      "application/vnd.openxmlformats-officedocument.wordprocessingml.document" := by
    decide
  simp [mimeFor, h1, h2, h3, d1, d2, d3]

/-- Closed instance of C8: an unrecognised extension yields
octet-stream. -/
theorem c8_mime_type_table_witness :
    get_mime_type "archive.zip" = "application/octet-stream" :=
  (c8_mime_type_table "archive.zip").2.2.2 (by decide) (by decide) (by decide)

/-- C4 (amended): `download_file` proxies a fetched http(s) URL with
attachment disposition, but when the proxy fetch fails it answers with
a browser redirect to the original URL — it does not attempt a second
fetch to serve the origin content. -/
theorem c4_download_redirects_on_fetch_failure
    (fetch : String → Except String FetchResult) (url : String) :
    (∀ r, fetch url = Except.ok r → isHttpUrl url = true →
      download_file fetch url = RenderPlan.serveBytes r.content
        (r.contentType.getD "application/octet-stream") true (urlFilename url))
  ∧ (∀ e, fetch url = Except.error e → isHttpUrl url = true →
      download_file fetch url = RenderPlan.redirectTo url) := by
  constructor
  · intro r hf hh
    simp [download_file, hh, hf]
  · intro e hf hh
    simp [download_file, hh, hf]

/-- C4 counterexample to the claim as stated: on a failing proxy fetch
with Download intent the endpoint answers with exactly the browser
redirect the claim rules out. -/
theorem c4_counterexample :
    download_file (fun _ => Except.error "fetch failed")
      "https://host.example.com/files/offer.pdf" =
    RenderPlan.redirectTo "https://host.example.com/files/offer.pdf" := by decide

/-- Closed instances of C4 (amended): one successful proxy serve with
attachment disposition and one failure-redirect. -/
theorem c4_download_redirects_on_fetch_failure_witness :
    download_file (fun _ => Except.ok ⟨pdfBytes, some "application/pdf"⟩)
      "https://host.example.com/files/cv.doc" =
      RenderPlan.serveBytes pdfBytes "application/pdf" true
        (urlFilename "https://host.example.com/files/cv.doc")
  ∧ download_file (fun _ => Except.error "down") "https://host.example.com/files/cv.doc" =
      RenderPlan.redirectTo "https://host.example.com/files/cv.doc" :=
  ⟨(c4_download_redirects_on_fetch_failure
      (fun _ => Except.ok ⟨pdfBytes, some "application/pdf"⟩)
      "https://host.example.com/files/cv.doc").1
      ⟨pdfBytes, some "application/pdf"⟩ rfl (by decide),
   (c4_download_redirects_on_fetch_failure (fun _ => Except.error "down")
      "https://host.example.com/files/cv.doc").2 "down" rfl (by decide)⟩

/-- C5 (amended): on View intent with a failing remote fetch,
`view_file` never answers with an error response, and in its
fetch-and-proxy branch it answers with a redirect to the URL it
attempted to fetch — the original URL except that supabase URLs
without a disposition parameter first get an inline-disposition
parameter appended. -/
theorem c5_view_degrades_without_throwing
    (fetch : String → Except String FetchResult) (url e : String)
    (hhttp : isHttpUrl url = true)
    (hfail : fetch (supabaseAdjust url) = Except.error e) :
    (viewProxyBranch url = true →
      view_file fetch url = RenderPlan.redirectTo (supabaseAdjust url))
  ∧ ∀ s d, view_file fetch url ≠ RenderPlan.httpError s d := by
  constructor
  · intro hp
    have hdoc : viewDocBranch url = false := by
      rcases Bool.eq_false_or_eq_true (viewDocBranch url) with h | h
      · rw [viewProxyBranch, h] at hp
        simp at hp
      · exact h
    have hdrive : viewDriveBranch url = false := by
      rcases Bool.eq_false_or_eq_true (viewDriveBranch url) with h | h
      · rw [viewProxyBranch, h] at hp
        simp at hp
      · exact h
    simp [view_file, hhttp, hdoc, hdrive, hfail]
  · intro s d
    by_cases hdoc : viewDocBranch url = true
    · simp [view_file, hhttp, hdoc]
    · by_cases hdrive : viewDriveBranch url = true
      · simp [view_file, hhttp, hdoc, hdrive]
      · simp only [Bool.not_eq_true] at hdoc hdrive
        simp [view_file, hhttp, hdoc, hdrive, hfail]

/-- C5 counterexample to the claim as stated: for a supabase URL the
failure redirect goes to the adjusted fetch URL, not to the original
URL. -/
theorem c5_counterexample :
    view_file (fun _ => Except.error "timeout") supaUrl =
      RenderPlan.redirectTo (supaUrl ++ "?response-content-disposition=inline")
  ∧ view_file (fun _ => Except.error "timeout") supaUrl ≠
      RenderPlan.redirectTo supaUrl := by
  constructor
  · decide
  · decide

/-- Closed instance of C5 (amended): a non-supabase URL with a failing
fetch is answered with a redirect to that URL, not an error. -/
theorem c5_view_degrades_without_throwing_witness :
    view_file (fun _ => Except.error "down") "https://host.example.com/files/cv.pdf" =
      RenderPlan.redirectTo (supabaseAdjust "https://host.example.com/files/cv.pdf")
  ∧ view_file (fun _ => Except.error "down") "https://host.example.com/files/cv.pdf" ≠
      RenderPlan.httpError 500 "Error viewing file" :=
  ⟨(c5_view_degrades_without_throwing (fun _ => Except.error "down")
      "https://host.example.com/files/cv.pdf" "down" (by decide) rfl).1 (by decide),
   (c5_view_degrades_without_throwing (fun _ => Except.error "down")
      "https://host.example.com/files/cv.pdf" "down" (by decide) rfl).2 500
      "Error viewing file"⟩

/-- C1 (amended): `create_application` makes a single storage attempt,
to Azure Blob Storage — the only backend whose store is ever invoked —
and when that upload fails the ingest is rejected with HTTP 500; no
other backend (drive, bucket, CDN or local disk) is tried. -/
theorem c1_azure_only (env : CreateEnv) (u c j f : String) (fc : List Nat)
    (store : List AppRecord) :
    ((create_application env u c j f fc store).1 = [] ∨
      (create_application env u c j f fc store).1 = [BackendKind.azureBlob])
  ∧ (∀ e, azureUploadResume env.azure u f fc = Except.error e →
      validResumeName f = true → env.dbConnOk = true → env.userExists = true →
      (create_application env u c j f fc store).2.1 =
        Except.error ⟨500, "Failed to upload file to Azure Blob Storage: " ++ e ++
          ". Please check Azure credentials."⟩) := by
  constructor
  · by_cases h1 : validResumeName f = false
    · simp [create_application, h1]
    · by_cases h2 : env.dbConnOk = false
      · simp [create_application, h1, h2]
      · by_cases h3 : env.userExists = false
        · simp [create_application, h1, h2, h3]
        · by_cases h4 : env.azure.account_name = "" ∨ env.azure.account_key = ""
          · rcases haz : azureUploadResume env.azure u f fc with e | ⟨link, path⟩
            · simp [create_application, h1, h2, h3, h4, haz]
            · by_cases h5 : env.insertOk = false
              · simp [create_application, h1, h2, h3, h4, haz, h5]
              · simp [create_application, h1, h2, h3, h4, haz, h5]
          · rcases haz : azureUploadResume env.azure u f fc with e | ⟨link, path⟩
            · simp [create_application, h1, h2, h3, h4, haz]
            · by_cases h5 : env.insertOk = false
              · simp [create_application, h1, h2, h3, h4, haz, h5]
              · simp [create_application, h1, h2, h3, h4, haz, h5]
  · intro e haz hv hdb huser
    simp [create_application, hv, hdb, huser, haz]

/-- C1 counterexample to the claim as stated: with the remote storage
write failing (and everything else healthy) the ingest fails outright
with HTTP 500, and the only backend that was invoked is Azure — there
is no ObjectDrive/BlobBucket/CDNMedia/LocalDisk failover chain and no
LocalDisk rescue. -/
theorem c1_counterexample :
    (create_application envRemoteFail "u" "acme" "desc" "offer.pdf" pdfBytes []).1 =
      [BackendKind.azureBlob]
  ∧ (create_application envRemoteFail "u" "acme" "desc" "offer.pdf" pdfBytes []).2.1 =
      Except.error ⟨500, "Failed to upload file to Azure Blob Storage: upload failed. Please check Azure credentials."⟩ :=
  ⟨rfl, rfl⟩

/-- Closed instance of C1 (amended): a concrete run in which the Azure
upload fails and the request is rejected with HTTP 500. -/
theorem c1_azure_only_witness :
    (create_application envRemoteFail "u2" "co" "jd" "resume.doc" pdfBytes []).2.1 =
      Except.error ⟨500, "Failed to upload file to Azure Blob Storage: upload failed. Please check Azure credentials."⟩ :=
  (c1_azure_only envRemoteFail "u2" "co" "jd" "resume.doc" pdfBytes []).2
    "upload failed" rfl rfl rfl rfl

/-- C3 (amended): the entry-point extension validator accepts exactly
the filenames ending in one of the literal lower-case suffixes .pdf,
.doc, .docx; the check is case-sensitive, so cv.PDF is rejected with
HTTP 400 before any backend is invoked. -/
theorem c3_extension_case_sensitive (env : CreateEnv) (u c j f : String)
    (fc : List Nat) (store : List AppRecord) :
    (validResumeName f = false →
      create_application env u c j f fc store =
        ([], Except.error ⟨400, "Only PDF and DOC files are allowed"⟩, store))
  ∧ validResumeName "cv.pdf" = true
  ∧ validResumeName "x.doc" = true
  ∧ validResumeName "x.docx" = true
  ∧ validResumeName "cv.PDF" = false
  ∧ validResumeName "x.txt" = false := by
  refine ⟨?_, by decide, by decide, by decide, by decide, by decide⟩
  intro h
  simp [create_application, h]

/-- C3 counterexample to the claim as stated: in an environment where
everything else would succeed, the mixed-case filename cv.PDF is
rejected with HTTP 400 — the validator is case-sensitive. -/
theorem c3_counterexample :
    create_application envAllOk "u" "acme" "desc" "cv.PDF" pdfBytes [] =
      ([], Except.error ⟨400, "Only PDF and DOC files are allowed"⟩, []) := rfl

/-- Closed instance of C3 (amended): a disallowed extension is rejected
with HTTP 400, no backend invoked, store unchanged. -/
theorem c3_extension_case_sensitive_witness :
    create_application envAllOk "u" "acme" "desc" "notes.txt" pdfBytes [] =
      ([], Except.error ⟨400, "Only PDF and DOC files are allowed"⟩, []) :=
  (c3_extension_case_sensitive envAllOk "u" "acme" "desc" "notes.txt" pdfBytes []).1
    rfl

/-- C6: when the storage upload fails the write is entirely rejected —
the applications table is unchanged — and every row of the resulting
table either pre-existed or carries the URL of the successful upload. -/
theorem c6_no_partial_persist (env : CreateEnv) (u c j f : String) (fc : List Nat)
    (store : List AppRecord) :
    (∀ e, azureUploadResume env.azure u f fc = Except.error e →
      (create_application env u c j f fc store).2.2 = store)
  ∧ (∀ r, r ∈ (create_application env u c j f fc store).2.2 →
      r ∈ store ∨ ∃ link path,
        azureUploadResume env.azure u f fc = Except.ok (link, path) ∧
        r.resume_file_url = link) := by
  constructor
  · intro e haz
    by_cases h1 : validResumeName f = false
    · simp [create_application, h1]
    · by_cases h2 : env.dbConnOk = false
      · simp [create_application, h1, h2]
      · by_cases h3 : env.userExists = false
        · simp [create_application, h1, h2, h3]
        · simp [create_application, h1, h2, h3, haz]
  · intro r hr
    by_cases h1 : validResumeName f = false
    · simp [create_application, h1] at hr
      exact Or.inl hr
    · by_cases h2 : env.dbConnOk = false
      · simp [create_application, h1, h2] at hr
        exact Or.inl hr
      · by_cases h3 : env.userExists = false
        · simp [create_application, h1, h2, h3] at hr
          exact Or.inl hr
        · rcases haz : azureUploadResume env.azure u f fc with e | ⟨link, path⟩
          · simp [create_application, h1, h2, h3, haz] at hr
            exact Or.inl hr
          · by_cases h5 : env.insertOk = false
            · simp [create_application, h1, h2, h3, haz, h5] at hr
              exact Or.inl hr
            · simp [create_application, h1, h2, h3, haz, h5] at hr
              rcases hr with hr | hr
              · exact Or.inl hr
              · refine Or.inr ⟨link, path, rfl, ?_⟩
                rw [hr]

/-- Closed instances of C6: a failed upload leaves the table unchanged,
and the row inserted by a successful run carries the upload URL. -/
theorem c6_no_partial_persist_witness :
    (create_application envRemoteFail "u" "acme" "desc" "a.pdf" pdfBytes
      [sampleRecord]).2.2 = [sampleRecord]
  ∧ (newRecA ∈ ([] : List AppRecord) ∨ ∃ link path,
      azureUploadResume envAllOk.azure "u" "a.pdf" pdfBytes =
        Except.ok (link, path) ∧ newRecA.resume_file_url = link) :=
  ⟨(c6_no_partial_persist envRemoteFail "u" "acme" "desc" "a.pdf" pdfBytes
      [sampleRecord]).1 "upload failed" rfl,
   (c6_no_partial_persist envAllOk "u" "acme" "desc" "a.pdf" pdfBytes []).2
      newRecA (by decide)⟩

/-- C9: every successful response of `create_application` or
`update_application` carries a single URL — its resume_file_url,
download_link and view_link fields are the identical string. -/
theorem c9_single_url (envC : CreateEnv) (envU : UpdateEnv) (u c j f : String)
    (fc : List Nat) (store : List AppRecord) (co jd st : Option String)
    (fi : Option (String × List Nat)) :
    (∀ resp, (create_application envC u c j f fc store).2.1 = Except.ok resp →
      resp.resume_file_url = resp.download_link ∧
        resp.view_link = resp.download_link)
  ∧ (∀ resp, update_application envU u co jd st fi = Except.ok resp →
      resp.resume_file_url = resp.download_link ∧
        resp.view_link = resp.download_link) := by
  constructor
  · intro resp h
    by_cases h1 : validResumeName f = false
    · simp [create_application, h1] at h
    · by_cases h2 : envC.dbConnOk = false
      · simp [create_application, h1, h2] at h
      · by_cases h3 : envC.userExists = false
        · simp [create_application, h1, h2, h3] at h
        · rcases haz : azureUploadResume envC.azure u f fc with e | ⟨link, path⟩
          · simp [create_application, h1, h2, h3, haz] at h
          · by_cases h5 : envC.insertOk = false
            · simp [create_application, h1, h2, h3, haz, h5] at h
            · simp [create_application, h1, h2, h3, haz, h5] at h
              rw [← h]
              exact ⟨rfl, rfl⟩
  · intro resp h
    by_cases h1 : envU.dbConnOk = false
    · simp [update_application, h1] at h
    · rcases hex : envU.existing with _ | row
      · simp [update_application, h1, hex] at h
      · by_cases h5 : envU.updateOk = false
        · rcases fi with _ | ⟨fname, fcontent⟩
          · simp [update_application, finishUpdate, h1, hex, h5] at h
          · by_cases h6 : validResumeName fname = false
            · simp [update_application, h1, hex, h6] at h
            · rcases haz : azureUploadResume envU.azure u fname fcontent with
                e | ⟨link, path⟩
              · simp [update_application, h1, hex, h6, haz] at h
              · simp [update_application, finishUpdate, h1, hex, h6, haz, h5] at h
        · rcases fi with _ | ⟨fname, fcontent⟩
          · simp [update_application, finishUpdate, h1, hex, h5] at h
            rw [← h]
            exact ⟨rfl, rfl⟩
          · by_cases h6 : validResumeName fname = false
            · simp [update_application, h1, hex, h6] at h
            · rcases haz : azureUploadResume envU.azure u fname fcontent with
                e | ⟨link, path⟩
              · simp [update_application, h1, hex, h6, haz] at h
              · simp [update_application, finishUpdate, h1, hex, h6, haz, h5] at h
                rw [← h]
                exact ⟨rfl, rfl⟩

/-- Closed instances of C9: the concrete successful create and update
runs both answer with the three URL fields identical. -/
theorem c9_single_url_witness :
    (respCreateOffer.resume_file_url = respCreateOffer.download_link ∧
      respCreateOffer.view_link = respCreateOffer.download_link)
  ∧ (respUpdateNew.resume_file_url = respUpdateNew.download_link ∧
      respUpdateNew.view_link = respUpdateNew.download_link) :=
  ⟨(c9_single_url envAllOk updateEnvOk "u" "acme" "desc" "offer.pdf" pdfBytes []
      none none none (some ("new.pdf", pdfBytes))).1 respCreateOffer rfl,
   (c9_single_url envAllOk updateEnvOk "u" "acme" "desc" "offer.pdf" pdfBytes []
      none none none (some ("new.pdf", pdfBytes))).2 respUpdateNew rfl⟩

/-- C10: the reference URL of every successful ingest — by
`create_application` or a file-replacing `update_application` — is the
blob address with a SAS token generated with read-only permission and
expiry exactly 365 days after the upload-time `utcnow`. -/
theorem c10_sas_expiry (envC : CreateEnv) (envU : UpdateEnv) (u c j f : String)
    (fc : List Nat) (store : List AppRecord) (co jd st : Option String)
    (fname : String) (fcontent : List Nat) :
    (∀ resp, (create_application envC u c j f fc store).2.1 = Except.ok resp →
      ∃ blob, resp.resume_file_url =
        "https://" ++ envC.azure.account_name ++ ".blob.core.windows.net/" ++
          envC.azure.container_name ++ "/" ++ blob ++ "?" ++
          envC.azure.sas ⟨envC.azure.account_name, envC.azure.container_name, blob,
            stripEy1 envC.azure.account_key, true,
            envC.azure.nowUtc + 365 * secondsPerDay⟩)
  ∧ (∀ resp, update_application envU u co jd st (some (fname, fcontent)) =
        Except.ok resp →
      ∃ blob, resp.resume_file_url =
        "https://" ++ envU.azure.account_name ++ ".blob.core.windows.net/" ++
          envU.azure.container_name ++ "/" ++ blob ++ "?" ++
          envU.azure.sas ⟨envU.azure.account_name, envU.azure.container_name, blob,
            stripEy1 envU.azure.account_key, true,
            envU.azure.nowUtc + 365 * secondsPerDay⟩) := by
  constructor
  · intro resp h
    by_cases h1 : validResumeName f = false
    · simp [create_application, h1] at h
    · by_cases h2 : envC.dbConnOk = false
      · simp [create_application, h1, h2] at h
      · by_cases h3 : envC.userExists = false
        · simp [create_application, h1, h2, h3] at h
        · rcases haz : azureUploadResume envC.azure u f fc with e | ⟨link, path⟩
          · simp [create_application, h1, h2, h3, haz] at h
          · by_cases h5 : envC.insertOk = false
            · simp [create_application, h1, h2, h3, haz, h5] at h
            · simp [create_application, h1, h2, h3, haz, h5] at h
              refine ⟨path, ?_⟩
              rw [← h]
              exact azureUploadResume_ok_shape envC.azure u f fc link path haz
  · intro resp h
    by_cases h1 : envU.dbConnOk = false
    · simp [update_application, h1] at h
    · rcases hex : envU.existing with _ | row
      · simp [update_application, h1, hex] at h
      · by_cases h6 : validResumeName fname = false
        · simp [update_application, h1, hex, h6] at h
        · rcases haz : azureUploadResume envU.azure u fname fcontent with
            e | ⟨link, path⟩
          · simp [update_application, h1, hex, h6, haz] at h
          · by_cases h5 : envU.updateOk = false
            · simp [update_application, finishUpdate, h1, hex, h6, haz, h5] at h
            · simp [update_application, finishUpdate, h1, hex, h6, haz, h5] at h
              refine ⟨path, ?_⟩
              rw [← h]
              exact azureUploadResume_ok_shape envU.azure u fname fcontent link
                path haz

/-- Closed instances of C10: in the concrete runs the stored URL is the
blob address carrying the read-only SAS token with expiry one year
after the upload time. -/
theorem c10_sas_expiry_witness :
    (∃ blob, respCreateOffer.resume_file_url =
      "https://" ++ envAllOk.azure.account_name ++ ".blob.core.windows.net/" ++
        envAllOk.azure.container_name ++ "/" ++ blob ++ "?" ++
        envAllOk.azure.sas ⟨envAllOk.azure.account_name,
          envAllOk.azure.container_name, blob, stripEy1 envAllOk.azure.account_key,
          true, envAllOk.azure.nowUtc + 365 * secondsPerDay⟩)
  ∧ (∃ blob, respUpdateNew.resume_file_url =
      "https://" ++ updateEnvOk.azure.account_name ++ ".blob.core.windows.net/" ++
        updateEnvOk.azure.container_name ++ "/" ++ blob ++ "?" ++
        updateEnvOk.azure.sas ⟨updateEnvOk.azure.account_name,
          updateEnvOk.azure.container_name, blob,
          stripEy1 updateEnvOk.azure.account_key, true,
          updateEnvOk.azure.nowUtc + 365 * secondsPerDay⟩) :=
  ⟨(c10_sas_expiry envAllOk updateEnvOk "u" "acme" "desc" "offer.pdf" pdfBytes []
      none none none "new.pdf" pdfBytes).1 respCreateOffer rfl,
   (c10_sas_expiry envAllOk updateEnvOk "u" "acme" "desc" "offer.pdf" pdfBytes []
      none none none "new.pdf" pdfBytes).2 respUpdateNew rfl⟩

end Getiva
